import Mathlib

/-!
Verification of the noode coordination layer against its specification.

The definitions below are a shallow embedding of the Python sources:
  - src/noode/protocols/consensus.py   (ConsensusBuilder, Vote, ConsensusResult)
  - src/noode/protocols/messages.py    (AgentMessage.create_reply)
  - src/noode/core/orchestrator.py     (Orchestrator, SubTask, ProjectState)
  - src/noode/core/base_agent.py       (BaseAgent._extract_confidence)

Python float confidences are modelled as rationals (Rat); Python dicts
(which preserve insertion order) are modelled as association lists with
unique keys; Python str values as String.  Fields carrying timestamps
(datetime.now defaults) are omitted: no modelled operation reads them.
Logging calls are omitted: they do not affect state.
-/

namespace Noode

/-! ## Python string primitives

`pyLower s` models `s.lower()` (as a character list); `listHasSub n h`
models the Python substring test `n in h` on character lists, and
`listStartsWith n h` checks that `n` is an initial segment of `h`. -/

def listStartsWith : List Char → List Char → Bool
  | [], _ => true
  | _ :: _, [] => false
  | a :: as, b :: bs => a == b && listStartsWith as bs

def listHasSub (needle : List Char) : List Char → Bool
  | [] => listStartsWith needle []
  | c :: rest => listStartsWith needle (c :: rest) || listHasSub needle rest

def pyLower (s : String) : List Char := s.data.map Char.toLower

/-- Model of Python `needle in hay.lower()` for a needle that is already
lowercase in the source text. -/
def pyInLower (needle : String) (hay : String) : Bool :=
  listHasSub needle.data (pyLower hay)

/-! ## consensus.py -/

/-- `VoteType` enum from consensus.py. -/
inductive VoteType
  | approve
  | reject
  | abstain
  | requestChanges
deriving DecidableEq, Repr

/-- `Vote` dataclass from consensus.py (timestamp field omitted). -/
structure Vote where
  voter : String
  vote_type : VoteType
  confidence : Rat
  reasoning : String
  concerns : List String
deriving DecidableEq, Repr

/-- `ConsensusResult` dataclass from consensus.py. -/
structure ConsensusResult where
  decision_id : String
  approved : Bool
  votes : List Vote
  final_decision : String
  dissenting_opinions : List String
  conditions : List String
deriving DecidableEq, Repr

/-- State of a `ConsensusBuilder` from consensus.py (constructor fields
plus the three private attributes set in `__init__`). -/
structure ConsensusBuilder where
  decision_id : String
  topic : String
  required_approvals : Int
  allow_veto : Bool
  _votes : List Vote
  _vetoed : Bool
  _veto_reason : Option String
deriving DecidableEq, Repr

/-- `ConsensusBuilder.__init__(decision_id, topic, required_approvals,
allow_veto)`. -/
def ConsensusBuilder.create (decision_id topic : String)
    (required_approvals : Int) (allow_veto : Bool) : ConsensusBuilder :=
  ⟨decision_id, topic, required_approvals, allow_veto, [], false, none⟩

/-- `ConsensusBuilder.add_vote`: the vote is dropped if the voter already
voted; otherwise it is appended, and a veto is recorded when vetoes are
allowed, the vote is a Reject, the voter name contains "security"
(case-insensitively) and at least one concern is given.  The source
appends first and then conditionally sets the two veto attributes on the
same object; the two mutations are merged into one record update here,
producing the identical final state. -/
def ConsensusBuilder.add_vote (b : ConsensusBuilder) (vote : Vote) : ConsensusBuilder :=
  if b._votes.any (fun existing => existing.voter == vote.voter) then b
  else if b.allow_veto && (vote.vote_type == VoteType.reject)
      && pyInLower "security" vote.voter && !vote.concerns.isEmpty then
    { b with _votes := b._votes ++ [vote],
             _vetoed := true,
             _veto_reason := some ("Security veto: " ++ vote.concerns.headI) }
  else { b with _votes := b._votes ++ [vote] }

/-- The local `approvals` sum of `get_result`: total confidence of
Approve votes. -/
def approvalWeight (votes : List Vote) : Rat :=
  ((votes.filter (fun v => v.vote_type == VoteType.approve)).map Vote.confidence).sum

/-- The local `rejections` sum of `get_result`: total confidence of
Reject votes. -/
def rejectionWeight (votes : List Vote) : Rat :=
  ((votes.filter (fun v => v.vote_type == VoteType.reject)).map Vote.confidence).sum

/-- The local `approved` flag of `get_result`:
`approvals >= required_approvals and approvals > rejections`. -/
def ConsensusBuilder.approvedFlag (b : ConsensusBuilder) : Bool :=
  decide (approvalWeight b._votes ≥ (b.required_approvals : Rat))
    && decide (approvalWeight b._votes > rejectionWeight b._votes)

/-- `ConsensusBuilder.get_result` from consensus.py. -/
def ConsensusBuilder.get_result (b : ConsensusBuilder) : ConsensusResult :=
  if b._vetoed then
    { decision_id := b.decision_id
      approved := false
      votes := b._votes
      final_decision := b._veto_reason.getD "Vetoed"
      dissenting_opinions := (b._votes.filter (fun v =>
        v.vote_type == VoteType.reject || v.vote_type == VoteType.requestChanges)).map Vote.reasoning
      conditions := [] }
  else
    { decision_id := b.decision_id
      approved := b.approvedFlag
      votes := b._votes
      final_decision := if b.approvedFlag then "Approved" else "Rejected"
      dissenting_opinions := (b._votes.filter (fun v =>
        v.vote_type == VoteType.reject)).map Vote.reasoning
      conditions := (b._votes.filter (fun v =>
        v.vote_type == VoteType.requestChanges)).flatMap Vote.concerns }

/-- Folding `add_vote` over a list of later votes. -/
def ConsensusBuilder.add_votes (b : ConsensusBuilder) (vs : List Vote) : ConsensusBuilder :=
  vs.foldl ConsensusBuilder.add_vote b

/-! ## messages.py -/

/-- `MessageType` enum from messages.py. -/
inductive MessageType
  | request
  | response
  | escalation
  | broadcast
  | review
  | approval
  | rejection
  | status
deriving DecidableEq, Repr

/-- `Priority` enum from messages.py. -/
inductive Priority
  | low
  | normal
  | high
  | critical
deriving DecidableEq, Repr

/-- `AgentMessage` dataclass from messages.py, polymorphic in the opaque
`content` payload (`Any` in the source); the timestamp field is omitted. -/
structure AgentMessage (α : Type) where
  sender : String
  receiver : String
  message_type : MessageType
  content : α
  confidence : Rat
  priority : Priority
  correlation_id : Option String
  in_reply_to : Option String
  message_id : String
deriving Repr

/-- `AgentMessage.create_reply` from messages.py.  The reply's own id is
produced by `_generate_id()` in the source; that fresh id is passed in
explicitly as `new_id`.  The reply's correlation id is the Python
expression `self.correlation_id or self.message_id`, whose value is the
original's correlation id when that is neither None nor the empty string,
and the original's message id otherwise. -/
def AgentMessage.create_reply (m : AgentMessage α) (sender : String) (content : α)
    (message_type : MessageType) (confidence : Rat) (new_id : String) :
    AgentMessage α :=
  { sender := sender
    receiver := m.sender
    message_type := message_type
    content := content
    confidence := confidence
    priority := Priority.normal
    correlation_id := some (match m.correlation_id with
      | some c => if c == "" then m.message_id else c
      | none => m.message_id)
    in_reply_to := some m.message_id
    message_id := new_id }

/-! ## orchestrator.py -/

/-- `TaskStatus` enum from orchestrator.py. -/
inductive TaskStatus
  | pending
  | assigned
  | in_progress
  | review
  | completed
  | failed
  | blocked
deriving DecidableEq, Repr

/-- `SubTask` dataclass from orchestrator.py (the `result` payload and
the two timestamp fields are omitted: no modelled operation reads them). -/
structure SubTask where
  task_id : String
  parent_id : Option String
  description : String
  assigned_agent : Option String
  status : TaskStatus
  dependencies : List String
deriving DecidableEq, Repr

/-- `ProjectState` dataclass from orchestrator.py; the task dict is an
insertion-ordered association list with unique keys (the free-form
`metadata` dict is omitted: no modelled operation reads it). -/
structure ProjectState where
  project_id : String
  name : String
  description : String
  tasks : List (String × SubTask)
  artifacts : List String
deriving DecidableEq, Repr

/-- The data of a registered `BaseAgent` that the orchestrator reads:
name, role text and capability tags (model name, threshold, lifecycle
state, memory and message queue are omitted: the modelled orchestrator
operations do not read them). -/
structure AgentInfo where
  name : String
  role : String
  capabilities : List String
deriving DecidableEq, Repr

/-- `Orchestrator` state: the `_agents` and `_projects` dicts, modelled
as insertion-ordered association lists with unique keys (the two asyncio
queues and the `_running` flag drive the polling loop and are not part of
the state the modelled operations read). -/
structure Orchestrator where
  _agents : List (String × AgentInfo)
  _projects : List (String × ProjectState)
deriving DecidableEq, Repr

/-- Python dict lookup `d[k]` / `k in d` on an association list. -/
def assocLookup (k : String) : List (String × α) → Option α
  | [] => none
  | kv :: rest => if kv.1 == k then some kv.2 else assocLookup k rest

/-- Python dict assignment `d[k] = v`: replaces in place when the key
exists, else appends (dicts preserve insertion order). -/
def dictInsert (k : String) (v : α) : List (String × α) → List (String × α)
  | [] => [(k, v)]
  | kv :: rest => if kv.1 == k then (k, v) :: rest else kv :: dictInsert k v rest

/-- `Orchestrator.__init__`: empty registries. -/
def Orchestrator.empty : Orchestrator := ⟨[], []⟩

/-- `Orchestrator.register_agent`: `self._agents[agent.name] = agent`. -/
def Orchestrator.register_agent (o : Orchestrator) (agent : AgentInfo) : Orchestrator :=
  { o with _agents := dictInsert agent.name agent o._agents }

/-- `Orchestrator.create_project`: builds a fresh ProjectState and stores
it with `self._projects[project_id] = project`, returning the project.
The source has no existence check: an existing entry under the same id is
overwritten. -/
def Orchestrator.create_project (o : Orchestrator)
    (project_id name description : String) : Orchestrator × ProjectState :=
  let project : ProjectState := ⟨project_id, name, description, [], []⟩
  ({ o with _projects := dictInsert project_id project o._projects }, project)

/-- `Orchestrator._select_agent`: first registered agent one of whose
capability tags occurs (case-insensitively) as a substring of the task
description; else the first registered agent; else the sentinel
"unknown". -/
def Orchestrator.select_agent (o : Orchestrator) (task : SubTask) : String :=
  match o._agents.findSome? (fun p =>
      if p.2.capabilities.any (fun cap =>
          listHasSub (pyLower cap) (pyLower task.description)) then
        some p.1
      else none) with
  | some name => name
  | none =>
    match o._agents with
    | [] => "unknown"
    | p :: _ => p.1

/-- Python truthiness test `not subtask.assigned_agent` on a
`str | None` field: true for None and for the empty string. -/
def optStrFalsy : Option String → Bool
  | none => true
  | some s => s == ""

/-- `Orchestrator.assign_task`, state-passing form: returns the updated
subtask and the boolean result.  When no agent is pre-assigned one is
selected; if the (possibly selected) agent name is not a registered key
the call fails without touching the status; otherwise the status is set
to Assigned.  The source performs no dependency check here.  Building
and delivering the Request message only mutates the receiving agent's
queue, which is outside the modelled state. -/
def Orchestrator.assign_task (o : Orchestrator) (subtask : SubTask) : SubTask × Bool :=
  let subtask :=
    if optStrFalsy subtask.assigned_agent then
      { subtask with assigned_agent := some (o.select_agent subtask) }
    else subtask
  match subtask.assigned_agent with
  | none => (subtask, false)
  | some name =>
    if (assocLookup name o._agents).isSome then
      ({ subtask with status := TaskStatus.assigned }, true)
    else (subtask, false)

/-- The per-project body of the `_dependencies_met` loop: False is
returned only when the dependency id is a key of the project's task dict
and that task's status is not Completed. -/
def depOkInProject (dep_id : String) (project : ProjectState) : Bool :=
  match assocLookup dep_id project.tasks with
  | some t => t.status == TaskStatus.completed
  | none => true

/-- `Orchestrator._dependencies_met`: every dependency id must pass
`depOkInProject` in every known project. -/
def Orchestrator.dependencies_met (o : Orchestrator) (task : SubTask) : Bool :=
  task.dependencies.all (fun dep_id =>
    o._projects.all (fun p => depOkInProject dep_id p.2))

/-- `Orchestrator._process_task`, state-passing form: returns the updated
task and whether it was re-queued.  An unmet dependency marks the task
Blocked and re-queues it; otherwise `assign_task` runs and, on success,
the status moves on to InProgress. -/
def Orchestrator.process_task (o : Orchestrator) (task : SubTask) : SubTask × Bool :=
  if (o.dependencies_met task) = false then
    ({ task with status := TaskStatus.blocked }, true)
  else
    match o.assign_task task with
    | (task2, true) => ({ task2 with status := TaskStatus.in_progress }, false)
    | (task2, false) => (task2, false)

/-! ## base_agent.py: `BaseAgent._extract_confidence`

The source lowercases the content and runs `re.search` with the three
patterns, in order:

    confidence[:\s]+(\d+\.?\d*)
    (\d+\.?\d*)\s*%
    (\d+\.?\d*)\s*/\s*1

taking the first pattern that matches anywhere; the captured group is
converted with `float` and divided by 100 when greater than 1; with no
match the value is 0.5.  The matchers below implement exactly these
three patterns on character lists: `re.search` tries every start
position left to right, `\s` is the ASCII whitespace class, the
quantifiers are greedy, and the optional dot backtracks when taking it
would make the rest of the pattern fail (giving back digits of `\d+` or
`\d*` can never help here, because a digit satisfies neither `\s`, `%`,
`/` nor end-of-pattern failure, so it is not modelled). -/

/-- Python regex class `\s` (ASCII range): space, tab, newline, carriage
return, vertical tab, form feed. -/
def isPySpace (c : Char) : Bool :=
  c == ' ' || c == '\t' || c == '\n' || c == '\r' || c.toNat == 11 || c.toNat == 12

/-- Consume an exact literal at the head of the input. -/
def dropLit : List Char → List Char → Option (List Char)
  | [], cs => some cs
  | _ :: _, [] => none
  | a :: as, c :: cs => if a == c then dropLit as cs else none

/-- Greedy match of `(\d+\.?\d*)` at the head of the input when it is
the last element of the pattern: returns the capture group. -/
def matchNumEnd (cs : List Char) : Option (List Char) :=
  match cs.takeWhile Char.isDigit with
  | [] => none
  | ds =>
    match cs.dropWhile Char.isDigit with
    | '.' :: rest => some (ds ++ '.' :: rest.takeWhile Char.isDigit)
    | _ => some ds

/-- Match `(\d+\.?\d*)` at the head of the input, followed by the rest
of the pattern (decided by `suffixOk` on the remaining characters); the
optional dot backtracks.  Returns the capture group. -/
def matchNumThen (suffixOk : List Char → Bool) (cs : List Char) : Option (List Char) :=
  match cs.takeWhile Char.isDigit with
  | [] => none
  | ds =>
    match cs.dropWhile Char.isDigit with
    | '.' :: rest2 =>
      if suffixOk (rest2.dropWhile Char.isDigit) then
        some (ds ++ '.' :: rest2.takeWhile Char.isDigit)
      else if suffixOk ('.' :: rest2) then some ds
      else none
    | rest => if suffixOk rest then some ds else none

/-- The first pattern, anchored at the head of the input: the literal
`confidence`, one or more of `[:\s]`, then the number group. -/
def matchP1At (cs : List Char) : Option (List Char) :=
  match dropLit "confidence".data cs with
  | none => none
  | some rest =>
    if (rest.takeWhile fun c => c == ':' || isPySpace c).isEmpty then none
    else matchNumEnd (rest.dropWhile fun c => c == ':' || isPySpace c)

/-- Tail of the second pattern after the group: `\s*%`. -/
def pctAfter (cs : List Char) : Bool :=
  match cs.dropWhile isPySpace with
  | '%' :: _ => true
  | _ => false

/-- Tail of the third pattern after the group: `\s*/\s*1`. -/
def slashOneAfter (cs : List Char) : Bool :=
  match cs.dropWhile isPySpace with
  | '/' :: rest =>
    match rest.dropWhile isPySpace with
    | '1' :: _ => true
    | _ => false
  | _ => false

/-- `re.search`: try the anchored matcher at every start position, left
to right. -/
def searchGroup (matchAt : List Char → Option (List Char)) : List Char → Option (List Char)
  | [] => matchAt []
  | c :: rest =>
    match matchAt (c :: rest) with
    | some g => some g
    | none => searchGroup matchAt rest

/-- Value of a run of decimal digits. -/
def digitsToNat (ds : List Char) : Nat :=
  ds.foldl (fun n c => 10 * n + (c.toNat - 48)) 0

/-- Python `float` on a capture group of shape `\d+\.?\d*`, as an exact
rational. -/
def floatOfGroup (g : List Char) : Rat :=
  match g.dropWhile Char.isDigit with
  | '.' :: frac =>
    (digitsToNat (g.takeWhile Char.isDigit) : Rat)
      + (digitsToNat frac : Rat) / ((10 : Rat) ^ frac.length)
  | _ => (digitsToNat (g.takeWhile Char.isDigit) : Rat)

/-- The capture group produced by the pattern loop of
`_extract_confidence`: the three regexes are tried in source order on the
lowercased content and the first group found anywhere wins. -/
def parsedGroup (content : String) : Option (List Char) :=
  match searchGroup matchP1At (pyLower content) with
  | some g => some g
  | none =>
    match searchGroup (matchNumThen pctAfter) (pyLower content) with
    | some g => some g
    | none => searchGroup (matchNumThen slashOneAfter) (pyLower content)

/-- `BaseAgent._extract_confidence` from base_agent.py: the parsed value
is divided by 100 when greater than 1, and 0.5 is returned when no
pattern matches.  `think` stores this value unmodified as
`Thought.confidence`. -/
def extract_confidence (content : String) : Rat :=
  match parsedGroup content with
  | some g =>
    if floatOfGroup g > 1 then floatOfGroup g / 100 else floatOfGroup g
  | none => (1 : Rat) / 2

/-! ## Concrete instances used by witnesses and counterexamples -/

/-- Builder for the C1 witness: one Approve vote of confidence 1
against a threshold of 1 and no veto. -/
def b1 : ConsensusBuilder :=
  (ConsensusBuilder.create "d1" "deploy" 1 true).add_vote
    ⟨"backend", VoteType.approve, 1, "lgtm", []⟩

/-- Fresh builder for the C2 witness. -/
def bSec : ConsensusBuilder := ConsensusBuilder.create "d2" "schema change" 2 true

/-- Security Reject vote with a concern, for the C2 witness. -/
def vSec : Vote :=
  ⟨"Security_Agent", VoteType.reject, 1, "injection risk", ["unsanitized input"]⟩

/-- Concrete vetoed builder shared by the C7 theorems. -/
def b7 : ConsensusBuilder :=
  (ConsensusBuilder.create "chg-1" "Review: chg-1" 2 true).add_vote
    ⟨"security_agent", VoteType.reject, 1, "sql injection risk", ["raw sql in handler"]⟩

/-- Builder with one recorded vote from "security_agent", for the C8
witness. -/
def b8 : ConsensusBuilder :=
  (ConsensusBuilder.create "d8" "t8" 2 true).add_vote
    ⟨"security_agent", VoteType.approve, 1, "ok", []⟩

/-- Duplicate vote from the same voter — a security Reject with a
concern — for the C8 witness. -/
def v8 : Vote := ⟨"security_agent", VoteType.reject, 1, "changed my mind", ["late concern"]⟩

/-- Pending task reused across the orchestrator examples. -/
def taskA : SubTask := ⟨"A", none, "write the user schema", none, TaskStatus.pending, []⟩

/-- Pre-existing project with one task, for the C5 counterexample. -/
def oldProject : ProjectState :=
  ⟨"P", "old name", "old description", [("A", taskA)], []⟩

/-- Orchestrator that already owns project "P", for the C5
counterexample. -/
def o5 : Orchestrator := ⟨[], [("P", oldProject)]⟩

/-- Registry with "research" registered before "backend", exactly as in
the claim C6. -/
def oSel : Orchestrator :=
  (Orchestrator.empty.register_agent
      ⟨"research", "Research specialist", ["searching documentation"]⟩).register_agent
    ⟨"backend", "Backend developer", ["api design"]⟩

/-- The task of the C6 scenario. -/
def apiTask : SubTask :=
  ⟨"T1", none, "Design an api for users", none, TaskStatus.pending, []⟩

/-- Task "B" depending on the still-pending task "A", pre-assigned to
the registered agent "backend". -/
def taskB : SubTask :=
  ⟨"B", none, "implement the endpoint", some "backend", TaskStatus.pending, ["A"]⟩

/-- Orchestrator whose project "P" holds pending "A" and dependent "B",
with agent "backend" registered. -/
def oDep : Orchestrator :=
  ⟨[("backend", ⟨"backend", "Backend developer", ["api design"]⟩)],
   [("P", ⟨"P", "proj", "the project", [("A", taskA), ("B", taskB)], []⟩)]⟩

/-- Completed version of task "A", for the C4 witness. -/
def taskADone : SubTask :=
  ⟨"A", none, "write the user schema", some "backend", TaskStatus.completed, []⟩

/-- Orchestrator where "B"'s only dependency "A" is Completed. -/
def oDepDone : Orchestrator :=
  ⟨[("backend", ⟨"backend", "Backend developer", ["api design"]⟩)],
   [("P", ⟨"P", "proj", "the project", [("A", taskADone), ("B", taskB)], []⟩)]⟩

/-- Request message with no correlation id, for the C9 witness. -/
def m0 : AgentMessage String :=
  ⟨"agent_a", "agent_b", MessageType.request, "help", 1, Priority.normal,
   none, none, "msg-1"⟩

/-! ## Sanity checks of the regex model -/

/-- The pattern loop reproduces the source's behaviour on the styles of
text named in its comment ("confidence: 0.8", "85%", a "/ 1" score) and
on unparseable text. -/
theorem parsedGroup_samples :
    parsedGroup "confidence: 0.8" = some "0.8".data ∧
    parsedGroup "i am about 85% sure" = some "85".data ∧
    parsedGroup "score 0.9 / 1" = some "0.9".data ∧
    parsedGroup "no number here" = none ∧
    parsedGroup "Confidence: 500" = some "500".data := by
  decide

/-! ## Helper lemmas about the consensus engine -/

/-- `add_vote` never changes the `allow_veto` flag. -/
theorem add_vote_allow_veto (b : ConsensusBuilder) (v : Vote) :
    (b.add_vote v).allow_veto = b.allow_veto := by
  unfold ConsensusBuilder.add_vote
  split
  · rfl
  · split <;> rfl

/-- Once `_vetoed` is set, `add_vote` never clears it. -/
theorem add_vote_vetoed_of_vetoed (b : ConsensusBuilder) (v : Vote)
    (h : b._vetoed = true) : (b.add_vote v)._vetoed = true := by
  unfold ConsensusBuilder.add_vote
  split
  · exact h
  · split
    · rfl
    · exact h

/-- Once `_vetoed` is set, no sequence of later votes clears it. -/
theorem add_votes_vetoed_of_vetoed (vs : List Vote) (b : ConsensusBuilder)
    (h : b._vetoed = true) : (b.add_votes vs)._vetoed = true := by
  induction vs generalizing b with
  | nil => exact h
  | cons v rest ih => exact ih (b.add_vote v) (add_vote_vetoed_of_vetoed b v h)

/-- A recorded Reject from a "security" voter with a concern sets
`_vetoed`. -/
theorem add_vote_sets_veto (b : ConsensusBuilder) (v : Vote)
    (hveto : b.allow_veto = true)
    (hnew : b._votes.any (fun existing => existing.voter == v.voter) = false)
    (hrej : v.vote_type = VoteType.reject)
    (hsec : pyInLower "security" v.voter = true)
    (hcon : v.concerns ≠ []) :
    (b.add_vote v)._vetoed = true := by
  unfold ConsensusBuilder.add_vote
  rw [hnew]
  obtain ⟨c, cs, hcons⟩ := List.exists_cons_of_ne_nil hcon
  simp [hveto, hrej, hsec, hcons]

/-- A vetoed builder always reports `approved = false`. -/
theorem get_result_not_approved_of_vetoed (b : ConsensusBuilder)
    (h : b._vetoed = true) : (b.get_result).approved = false := by
  unfold ConsensusBuilder.get_result
  simp [h]

/-! ## C1 -/

/-- C1: for every ConsensusBuilder on which no veto has been cast,
`get_result` reports `approved = true` iff the summed confidence of
Approve votes reaches `required_approvals` and strictly exceeds the
summed confidence of Reject votes (to which RequestChanges votes
contribute nothing), and every concern string of every RequestChanges
vote appears in the result's conditions list. -/
theorem approved_iff_weights (b : ConsensusBuilder) (h : b._vetoed = false) :
    ((b.get_result).approved = true ↔
      approvalWeight b._votes ≥ (b.required_approvals : Rat) ∧
        approvalWeight b._votes > rejectionWeight b._votes) ∧
    ∀ v ∈ b._votes, v.vote_type = VoteType.requestChanges →
      ∀ c ∈ v.concerns, c ∈ (b.get_result).conditions := by
  unfold ConsensusBuilder.get_result
  simp only [h, Bool.false_eq_true, if_false]
  constructor
  · simp [ConsensusBuilder.approvedFlag]
  · intro v hv hrc c hc
    simp only [List.mem_flatMap, List.mem_filter]
    exact ⟨v, ⟨hv, by simp [hrc]⟩, hc⟩

/-- Witness for C1 at `b1`. -/
theorem approved_iff_weights_witness : (b1.get_result).approved = true := by
  apply ((approved_iff_weights b1 rfl).1).mpr
  have ha : approvalWeight b1._votes = 1 + 0 := rfl
  have hr : rejectionWeight b1._votes = 0 := rfl
  have hq : b1.required_approvals = 1 := rfl
  rw [ha, hr, hq]
  norm_num

/-! ## C2 -/

/-- C2: on a builder with `allow_veto = true`, once a Reject vote from a
voter whose name contains "security" (case-insensitively) with a
non-empty concerns list is recorded (the voter had not voted before),
every later `get_result` returns `approved = false` no matter which
votes are added afterwards. -/
theorem security_veto_permanent (b : ConsensusBuilder) (v : Vote) (vs : List Vote)
    (hveto : b.allow_veto = true)
    (hnew : b._votes.any (fun existing => existing.voter == v.voter) = false)
    (hrej : v.vote_type = VoteType.reject)
    (hsec : pyInLower "security" v.voter = true)
    (hcon : v.concerns ≠ []) :
    (((b.add_vote v).add_votes vs).get_result).approved = false := by
  apply get_result_not_approved_of_vetoed
  apply add_votes_vetoed_of_vetoed
  exact add_vote_sets_veto b v hveto hnew hrej hsec hcon

/-- Witness for C2: two later Approve votes whose weight alone would
clear the threshold still leave the decision rejected. -/
theorem security_veto_permanent_witness :
    (((bSec.add_vote vSec).add_votes
        [⟨"backend", VoteType.approve, 5, "fine", []⟩,
         ⟨"frontend", VoteType.approve, 5, "fine too", []⟩]).get_result).approved = false :=
  security_veto_permanent bSec vSec
    [⟨"backend", VoteType.approve, 5, "fine", []⟩,
     ⟨"frontend", VoteType.approve, 5, "fine too", []⟩]
    rfl rfl rfl (by decide) (by decide)

/-! ## C7 -/

/-- C7 counterexample: on the vetoed builder `b7` the result is indeed
not approved, but the veto reason ("Security veto: raw sql in handler")
is the `final_decision`, not the first element of
`dissenting_opinions`, which instead holds the vote's reasoning text. -/
theorem veto_reason_not_first_dissent_cex :
    b7._vetoed = true ∧
    b7._veto_reason = some "Security veto: raw sql in handler" ∧
    (b7.get_result).approved = false ∧
    (b7.get_result).final_decision = "Security veto: raw sql in handler" ∧
    (b7.get_result).dissenting_opinions = ["sql injection risk"] ∧
    (b7.get_result).dissenting_opinions.head? ≠
      some "Security veto: raw sql in handler" := by
  decide

/-- C7 (amended): for every vetoed ConsensusBuilder, `get_result`
returns `approved = false`, carries the veto reason (or "Vetoed") as the
`final_decision`, and lists as dissenting opinions the reasoning texts
of all Reject and RequestChanges votes. -/
theorem vetoed_result_shape (b : ConsensusBuilder) (h : b._vetoed = true) :
    (b.get_result).approved = false ∧
    (b.get_result).final_decision = b._veto_reason.getD "Vetoed" ∧
    (b.get_result).dissenting_opinions =
      (b._votes.filter (fun v =>
        v.vote_type == VoteType.reject
          || v.vote_type == VoteType.requestChanges)).map Vote.reasoning := by
  unfold ConsensusBuilder.get_result
  simp [h]

/-- Witness for the amended C7 at `b7`. -/
theorem vetoed_result_shape_witness :
    (b7.get_result).approved = false ∧
    (b7.get_result).final_decision = b7._veto_reason.getD "Vetoed" ∧
    (b7.get_result).dissenting_opinions =
      (b7._votes.filter (fun v =>
        v.vote_type == VoteType.reject
          || v.vote_type == VoteType.requestChanges)).map Vote.reasoning :=
  vetoed_result_shape b7 (by decide)

/-! ## C8 -/

/-- C8: a vote from a voter who already has exactly one recorded vote
leaves the builder completely unchanged: the same single vote stays
recorded, and no veto is triggered even if the duplicate is a security
Reject with concerns. -/
theorem duplicate_vote_noop (b : ConsensusBuilder) (v : Vote)
    (h : b._votes.countP (fun existing => existing.voter == v.voter) = 1) :
    b.add_vote v = b ∧
    (b.add_vote v)._votes.countP (fun existing => existing.voter == v.voter) = 1 ∧
    (b.add_vote v)._vetoed = b._vetoed := by
  have hany : b._votes.any (fun existing => existing.voter == v.voter) = true := by
    rw [List.any_eq_true]
    have hpos : 0 < b._votes.countP (fun existing => existing.voter == v.voter) := by
      rw [h]; exact Nat.one_pos
    exact List.countP_pos_iff.mp hpos
  have heq : b.add_vote v = b := by
    unfold ConsensusBuilder.add_vote
    rw [hany]
    simp
  exact ⟨heq, by rw [heq]; exact h, by rw [heq]⟩

/-- Witness for C8 at `b8`, `v8`: the duplicate (a security Reject with
a concern) is ignored and triggers no veto. -/
theorem duplicate_vote_noop_witness :
    b8.add_vote v8 = b8 ∧
    (b8.add_vote v8)._votes.countP (fun existing => existing.voter == v8.voter) = 1 ∧
    (b8.add_vote v8)._vetoed = b8._vetoed :=
  duplicate_vote_noop b8 v8 (by decide)

/-! ## Helper lemmas about dict updates -/

/-- Looking up the key just written by a dict assignment yields the new
value. -/
theorem assocLookup_dictInsert_self {α : Type} (k : String) (v : α)
    (l : List (String × α)) : assocLookup k (dictInsert k v l) = some v := by
  induction l with
  | nil => simp [dictInsert, assocLookup]
  | cons kv rest ih =>
    by_cases h : kv.1 = k
    · simp [dictInsert, assocLookup, h]
    · simp [dictInsert, assocLookup, h, ih]

/-- A dict assignment leaves every other key's binding unchanged. -/
theorem assocLookup_dictInsert_ne {α : Type} (k k2 : String) (v : α)
    (l : List (String × α)) (h : k2 ≠ k) :
    assocLookup k2 (dictInsert k v l) = assocLookup k2 l := by
  induction l with
  | nil => simp [dictInsert, assocLookup, Ne.symm h]
  | cons kv rest ih =>
    by_cases hk : kv.1 = k
    · simp [dictInsert, assocLookup, hk, Ne.symm h, ih]
    · by_cases h2 : kv.1 = k2 <;>
        simp [dictInsert, assocLookup, hk, h2, h, Ne.symm h, ih]

/-! ## C5 -/

/-- C5 counterexample: with project "P" (holding task "A") already
present, `create_project("P", ...)` does not fail — it succeeds and
replaces the stored ProjectState, dropping the old task dict. -/
theorem create_project_existing_id_cex :
    assocLookup "P" o5._projects = some oldProject ∧
    oldProject.tasks ≠ [] ∧
    assocLookup "P" ((o5.create_project "P" "new name" "new description").1)._projects =
      some ⟨"P", "new name", "new description", [], []⟩ ∧
    (⟨"P", "new name", "new description", [], []⟩ : ProjectState) ≠ oldProject := by
  decide

/-- C5 (amended): `create_project` always succeeds; it stores a fresh
empty project under the id — replacing any existing ProjectState and its
tasks — and leaves every other id's binding unchanged. -/
theorem create_project_replaces (o : Orchestrator)
    (project_id name description : String) :
    (o.create_project project_id name description).2 =
      ⟨project_id, name, description, [], []⟩ ∧
    assocLookup project_id
        ((o.create_project project_id name description).1)._projects =
      some ⟨project_id, name, description, [], []⟩ ∧
    ∀ k, k ≠ project_id →
      assocLookup k ((o.create_project project_id name description).1)._projects =
        assocLookup k o._projects := by
  refine ⟨rfl, ?_, ?_⟩
  · exact assocLookup_dictInsert_self project_id _ o._projects
  · intro k hk
    exact assocLookup_dictInsert_ne project_id k _ o._projects hk

/-- Witness for the amended C5: replacing project "P" of `o5`. -/
theorem create_project_replaces_witness :
    assocLookup "P" ((o5.create_project "P" "new name" "new description").1)._projects =
      some ⟨"P", "new name", "new description", [], []⟩ ∧
    assocLookup "Q" ((o5.create_project "P" "new name" "new description").1)._projects =
      assocLookup "Q" o5._projects :=
  ⟨(create_project_replaces o5 "P" "new name" "new description").2.1,
   (create_project_replaces o5 "P" "new name" "new description").2.2 "Q" (by decide)⟩

/-! ## C6 -/

/-- C6 counterexample: neither capability tag ("searching documentation",
"api design") occurs as a substring of "Design an api for users", so the
documented algorithm falls back to the first registered agent and picks
"research", not "backend". -/
theorem select_agent_api_cex :
    oSel.select_agent apiTask = "research" ∧
    (oSel.assign_task apiTask).1.assigned_agent = some "research" ∧
    oSel.select_agent apiTask ≠ "backend" := by
  decide

/-- C6 (amended): in the claim's scenario selection yields "research" by
the first-registered-agent fallback, and `assign_task` assigns the task
to "research". -/
theorem select_agent_api_fallback :
    oSel.select_agent apiTask = "research" ∧
    (oSel.assign_task apiTask).1.assigned_agent = some "research" ∧
    (oSel.assign_task apiTask).2 = true ∧
    (oSel.assign_task apiTask).1.status = TaskStatus.assigned := by
  decide

/-! ## C3 -/

/-- C3 counterexample: `assign_task` performs no dependency check — on
task "B", whose dependency "A" is Pending, it still returns true and
sets the status to Assigned. -/
theorem assign_task_unmet_dependency_cex :
    oDep.dependencies_met taskB = false ∧
    (oDep.assign_task taskB).2 = true ∧
    (oDep.assign_task taskB).1.status = TaskStatus.assigned := by
  decide

/-- C3 (amended): the dependency guard lives in `_process_task`, not in
`assign_task`: a polled task with an unmet dependency is marked Blocked
and re-queued, never Assigned. -/
theorem process_task_blocks_unmet (o : Orchestrator) (task : SubTask)
    (h : o.dependencies_met task = false) :
    o.process_task task = ({ task with status := TaskStatus.blocked }, true) := by
  unfold Orchestrator.process_task
  rw [h]
  simp

/-- Witness for the amended C3 at `oDep`, `taskB`. -/
theorem process_task_blocks_unmet_witness :
    oDep.process_task taskB = ({ taskB with status := TaskStatus.blocked }, true) :=
  process_task_blocks_unmet oDep taskB (by decide)

/-! ## C4 -/

/-- The per-project check passes iff the task found under the id (if
any) is Completed. -/
theorem depOkInProject_iff (dep_id : String) (project : ProjectState) :
    depOkInProject dep_id project = true ↔
      ∀ t ∈ assocLookup dep_id project.tasks, t.status = TaskStatus.completed := by
  unfold depOkInProject
  cases h : assocLookup dep_id project.tasks with
  | none => simp
  | some t => simp

/-- C4: `_dependencies_met` holds iff every dependency id has status
Completed wherever it is found among the known projects; in particular a
dependency id found in no project never blocks the check. -/
theorem dependencies_met_iff (o : Orchestrator) (task : SubTask) :
    (o.dependencies_met task = true ↔
      ∀ dep_id ∈ task.dependencies, ∀ p ∈ o._projects,
        ∀ t ∈ assocLookup dep_id p.2.tasks, t.status = TaskStatus.completed) ∧
    ((∀ dep_id ∈ task.dependencies, ∀ p ∈ o._projects,
        assocLookup dep_id p.2.tasks = none) →
      o.dependencies_met task = true) := by
  have hmain : o.dependencies_met task = true ↔
      ∀ dep_id ∈ task.dependencies, ∀ p ∈ o._projects,
        ∀ t ∈ assocLookup dep_id p.2.tasks, t.status = TaskStatus.completed := by
    unfold Orchestrator.dependencies_met
    simp [List.all_eq_true, depOkInProject_iff]
  refine ⟨hmain, ?_⟩
  intro hnone
  apply hmain.mpr
  intro dep_id hdep p hp t ht
  rw [hnone dep_id hdep p hp] at ht
  cases ht

/-- Witness for C4: with "A" Completed, the check succeeds on "B". -/
theorem dependencies_met_iff_witness : oDepDone.dependencies_met taskB = true :=
  (dependencies_met_iff oDepDone taskB).1.mpr (by decide)

/-! ## C9 -/

/-- C9: `create_reply` answers back to the original sender, records the
original message id as `in_reply_to`, and carries the original's
correlation id forward when the original has one (a non-empty one — the
source tests Python truthiness of the `str | None` field), falling back
to the original's own message id otherwise. -/
theorem create_reply_correlation {α : Type} (m : AgentMessage α) (sender : String)
    (content : α) (message_type : MessageType) (confidence : Rat) (new_id : String) :
    (m.create_reply sender content message_type confidence new_id).receiver
        = m.sender ∧
    (m.create_reply sender content message_type confidence new_id).in_reply_to
        = some m.message_id ∧
    (∀ c, m.correlation_id = some c → c ≠ "" →
      (m.create_reply sender content message_type confidence new_id).correlation_id
        = some c) ∧
    ((m.correlation_id = none ∨ m.correlation_id = some "") →
      (m.create_reply sender content message_type confidence new_id).correlation_id
        = some m.message_id) := by
  refine ⟨rfl, rfl, ?_, ?_⟩
  · intro c hc hne
    simp [AgentMessage.create_reply, hc, hne]
  · rintro (hc | hc) <;> simp [AgentMessage.create_reply, hc]

/-- Witness for C9 at `m0`: the reply goes back to "agent_a", points at
"msg-1", and adopts "msg-1" as correlation id since `m0` has none. -/
theorem create_reply_correlation_witness :
    (m0.create_reply "agent_b" "on it" MessageType.response 1 "msg-2").receiver
        = "agent_a" ∧
    (m0.create_reply "agent_b" "on it" MessageType.response 1 "msg-2").in_reply_to
        = some "msg-1" ∧
    (m0.create_reply "agent_b" "on it" MessageType.response 1 "msg-2").correlation_id
        = some "msg-1" := by
  obtain ⟨h1, h2, -, h4⟩ :=
    create_reply_correlation m0 "agent_b" "on it" MessageType.response 1 "msg-2"
  exact ⟨h1, h2, h4 (Or.inl rfl)⟩

/-! ## C10 -/

/-- C10: the input "confidence: 500" parses (first pattern, group
"500"), the value 500 exceeds 1 and is divided by 100, and the function
returns 5 — outside the [0,1] range the specification promises.  The
unparseable-input fallback of 0.5 does hold (second conjunct). -/
theorem extract_confidence_exceeds_one :
    extract_confidence "confidence: 500" = 5 ∧
    ¬ extract_confidence "confidence: 500" ≤ 1 ∧
    extract_confidence "there is no number in this text" = 1 / 2 := by
  have hg : parsedGroup "confidence: 500" = some "500".data := by decide
  have hv0 : floatOfGroup "500".data = ((500 : Nat) : Rat) := rfl
  have hv : floatOfGroup "500".data = 500 := by rw [hv0]; norm_num
  have he : extract_confidence "confidence: 500" = 5 := by
    unfold extract_confidence
    rw [hg]
    simp only [hv]
    norm_num
  refine ⟨he, ?_, rfl⟩
  rw [he]
  norm_num

end Noode
